import Mathlib

/-!
Build Governor: verification of the token-budget / lease core.

A shallow embedding of the build-governor service shipped in
`tools/build-governor` (C# sources `Gov.Common/WindowsMemoryMetrics.cs`,
`Gov.Common/FailureClassifier.cs`, `Gov.Service/TokenPool.cs`,
`Gov.Service/PipeServer.cs`, `Gov.Service/Program.cs`).

C# `double` fields are modelled as exact rationals (`ℚ`), C# `int`/`long`
as `ℤ`, and `DateTime` instants as integer milliseconds.  Fallible OS
calls are modelled with `Except`.  Each definition mirrors one source
method; line references are given in the doc comments.
-/

namespace Governor

/-- Bytes per GB used throughout the source: `1024.0 * 1024 * 1024`. -/
def bytesPerGb : ℚ := 1024 * 1024 * 1024

/-- Enum `ThrottleLevel` (WindowsMemoryMetrics.cs lines 145–151). -/
inductive ThrottleLevel where
  | Normal
  | Caution
  | SoftStop
  | HardStop
deriving DecidableEq, Repr

/-- Record `MemoryStatus` (WindowsMemoryMetrics.cs lines 98–111). -/
structure MemoryStatus where
  totalPhysicalBytes : ℤ
  availablePhysicalBytes : ℤ
  commitChargeBytes : ℤ
  commitLimitBytes : ℤ
  commitRatio : ℚ
  memoryLoadPercent : ℤ
deriving DecidableEq, Repr

/-- Record `TokenBudgetConfig` with its defaults
(WindowsMemoryMetrics.cs lines 121–143). -/
structure TokenBudgetConfig where
  gbPerToken : ℚ := 2
  safetyReserveGb : ℚ := 8
  minTokens : ℤ := 1
  maxTokens : ℤ := 32
  cautionRatio : ℚ := 0.80
  softStopRatio : ℚ := 0.88
  hardStopRatio : ℚ := 0.92
deriving DecidableEq, Repr

/-- Record `TokenBudget` (WindowsMemoryMetrics.cs lines 113–119). -/
structure TokenBudget where
  totalTokens : ℤ
  throttleLevel : ThrottleLevel
  recommendedParallelism : ℤ
  availableCommitGb : ℚ
deriving DecidableEq, Repr

/-- Semantics of `Math.Clamp(value, min, max)` on `int`, in its defined range
(`min ≤ max`; the C# overload throws otherwise). -/
def clampInt (value lo hi : ℤ) : ℤ :=
  if value < lo then lo else if hi < value then hi else value

/-- Method `WindowsMemoryMetrics.CalculateTokenBudget`
(WindowsMemoryMetrics.cs lines 62–95). -/
def calculateTokenBudget (status : MemoryStatus) (config : TokenBudgetConfig) :
    TokenBudget :=
  let availableCommitGb : ℚ :=
    ((status.commitLimitBytes - status.commitChargeBytes : ℤ) : ℚ) / bytesPerGb
  let usableCommitGb : ℚ := max 0 (availableCommitGb - config.safetyReserveGb)
  let totalTokens : ℤ :=
    clampInt ⌊usableCommitGb / config.gbPerToken⌋ config.minTokens config.maxTokens
  let throttle : ThrottleLevel :=
    if status.commitRatio ≥ config.hardStopRatio then .HardStop
    else if status.commitRatio ≥ config.softStopRatio then .SoftStop
    else if status.commitRatio ≥ config.cautionRatio then .Caution
    else .Normal
  let recommendedParallelism : ℤ := max 1 ⌊usableCommitGb / 3⌋
  { totalTokens := totalTokens
    throttleLevel := throttle
    recommendedParallelism := recommendedParallelism
    availableCommitGb := availableCommitGb }

/-! Section: Failure classifier (`Gov.Common/FailureClassifier.cs`) -/

/-- Enum `FailureClassification` (Gov.Protocol/Messages.cs lines 59–66). -/
inductive FailureClassification where
  | Success
  | NormalCompileError
  | LikelyOOM
  | LikelyPagingDeath
  | Unknown
deriving DecidableEq, Repr

/-- Record `ClassificationInput` (FailureClassifier.cs lines 149–160). -/
structure ClassificationInput where
  exitCode : ℤ
  durationMs : ℤ
  commitRatioAtExit : ℚ
  peakCommitRatioDuringExecution : ℚ
  peakProcessCommitGb : ℚ
  stderrHadDiagnostics : Bool
  commitChargeGb : ℚ
  commitLimitGb : ℚ
  recommendedParallelism : ℤ
deriving DecidableEq, Repr

/-- Record `ClassificationResult` (FailureClassifier.cs lines 162–169);
`Message` and `Reasons` are nullable in the source, hence `Option`. -/
structure ClassificationResult where
  classification : FailureClassification
  message : Option String
  shouldRetry : Bool
  confidence : ℚ
  reasons : Option (List String) := none
deriving DecidableEq, Repr

/-- Method `FailureClassifier.FormatOomMessage` (FailureClassifier.cs lines 111–129);
the box-drawing borders of the source string are abbreviated to the
content they frame (exit code, commit figures, peak, reasons, and the
parallelism recommendation in each build driver's vocabulary). -/
def formatOomMessage (input : ClassificationInput) (reasons : List String) :
    String :=
  "BUILD FAILED: Memory Pressure Detected. Exit code: " ++
    toString input.exitCode ++
    ". System commit: " ++ toString input.commitRatioAtExit ++
    " (" ++ toString input.commitChargeGb ++ " GB / " ++
    toString input.commitLimitGb ++ " GB). Process peak: " ++
    toString input.peakProcessCommitGb ++ " GB. Evidence: " ++
    String.intercalate ", " reasons ++
    ". Recommendation: Reduce parallelism. CMAKE_BUILD_PARALLEL_LEVEL=" ++
    toString input.recommendedParallelism ++
    " MSBuild: /m:" ++ toString input.recommendedParallelism ++
    " Ninja: -j" ++ toString input.recommendedParallelism

/-- Method `FailureClassifier.FormatPagingMessage` (FailureClassifier.cs lines
131–146), abbreviated the same way. -/
def formatPagingMessage (input : ClassificationInput) (reasons : List String) :
    String :=
  "BUILD FAILED: Possible Paging Pressure. Exit code: " ++
    toString input.exitCode ++
    ". System commit: " ++ toString input.commitRatioAtExit ++
    ". Process peak: " ++ toString input.peakProcessCommitGb ++
    " GB. Evidence: " ++ String.intercalate ", " reasons ++
    ". Will retry with reduced parallelism..."

/-- The `oom_evidence` accumulation inside `FailureClassifier.Classify`
(FailureClassifier.cs lines 28–69): one additive contribution per
evidence rule, written in source order. -/
def oomEvidence (input : ClassificationInput) : ℚ :=
  (if input.commitRatioAtExit ≥ 0.92 then (0.4 : ℚ)
   else if input.commitRatioAtExit ≥ 0.88 then 0.25 else 0)
  + (if input.peakCommitRatioDuringExecution ≥ 0.95 then (0.3 : ℚ) else 0)
  + (if input.peakProcessCommitGb ≥ 2.5 then (0.2 : ℚ) else 0)
  + (if !input.stderrHadDiagnostics then (0.2 : ℚ) else 0)
  + (if input.durationMs < 5000 ∧ input.peakProcessCommitGb ≥ 1.5 then (0.15 : ℚ)
     else 0)

/-- The `reasons` list accumulated alongside `oom_evidence`
(FailureClassifier.cs lines 29–69), in source order. -/
def oomReasons (input : ClassificationInput) : List String :=
  (if input.commitRatioAtExit ≥ 0.88 then
     ["commit ratio " ++ toString input.commitRatioAtExit ++ " at exit"]
   else [])
  ++ (if input.peakCommitRatioDuringExecution ≥ 0.95 then
        ["peak commit ratio " ++ toString input.peakCommitRatioDuringExecution ++
           " during execution"]
      else [])
  ++ (if input.peakProcessCommitGb ≥ 2.5 then
        ["process peaked at " ++ toString input.peakProcessCommitGb ++ " GB"]
      else [])
  ++ (if !input.stderrHadDiagnostics then ["no compiler diagnostics in stderr"]
      else [])
  ++ (if input.durationMs < 5000 ∧ input.peakProcessCommitGb ≥ 1.5 then
        ["short duration with high memory"]
      else [])

/-- Method `FailureClassifier.Classify` (FailureClassifier.cs lines 13–109). -/
def classify (input : ClassificationInput) : ClassificationResult :=
  if input.exitCode = 0 then
    { classification := .Success
      message := none
      shouldRetry := false
      confidence := 1 }
  else
    let evidence := oomEvidence input
    let reasons := oomReasons input
    if evidence ≥ 0.6 then
      { classification := .LikelyOOM
        message := some (formatOomMessage input reasons)
        shouldRetry := true
        confidence := min 1 evidence
        reasons := some reasons }
    else if evidence ≥ 0.4 then
      { classification := .LikelyPagingDeath
        message := some (formatPagingMessage input reasons)
        shouldRetry := true
        confidence := min 1 evidence
        reasons := some reasons }
    else if input.stderrHadDiagnostics then
      { classification := .NormalCompileError
        message := none
        shouldRetry := false
        confidence := min 1 evidence
        reasons := some reasons }
    else
      { classification := .Unknown
        message := some ("Build failed (exit code " ++ toString input.exitCode ++
          "). Unable to determine cause.")
        shouldRetry := false
        confidence := min 1 evidence
        reasons := some reasons }

/-! Section: Token pool (`Gov.Service/TokenPool.cs`) -/

/-- Constant `TokenPool.LeaseTimeout = TimeSpan.FromMinutes(30)`
(TokenPool.cs line 19), in milliseconds. -/
def leaseTimeoutMs : ℤ := 30 * 60 * 1000

/-- Constant `TokenPool.LeaseWarningThreshold = TimeSpan.FromMinutes(10)`
(TokenPool.cs line 20), in milliseconds. -/
def leaseWarningThresholdMs : ℤ := 10 * 60 * 1000

/-- Record `Lease` (TokenPool.cs lines 305–314). -/
structure Lease where
  leaseId : String
  tool : String
  tokens : ℤ
  acquiredAt : ℤ
  expiresAt : ℤ
  commitRatioAtAcquire : ℚ
  warningLogged : Bool := false
deriving DecidableEq, Repr

/-- The `_activeLeases` dictionary, as an association list keyed by
lease id (fresh GUID-derived ids never collide). -/
abbrev LeaseTable := List (String × Lease)

/-- Dictionary lookup (`_activeLeases.TryGetValue` / indexer read). -/
def findLease (leaseId : String) : LeaseTable → Option Lease
  | [] => none
  | (k, l) :: rest => if k = leaseId then some l else findLease leaseId rest

/-- Dictionary removal (`_activeLeases.TryRemove`), dropping the keyed
entry. -/
def dropLease (leaseId : String) : LeaseTable → LeaseTable
  | [] => []
  | (k, l) :: rest =>
      if k = leaseId then dropLease leaseId rest
      else (k, l) :: dropLease leaseId rest

/-- The mutable fields of `TokenPool` (TokenPool.cs lines 22–26) guarded
by the pool lock, as one state record. -/
structure PoolState where
  totalTokens : ℤ
  availableTokens : ℤ
  activeLeases : LeaseTable
  throttleLevel : ThrottleLevel
  lastMemoryStatus : MemoryStatus
  expiredLeaseCount : ℤ
deriving DecidableEq, Repr

/-- Method `TokenPool.RecalculateBudget` (TokenPool.cs lines 215–223). -/
def recalculateBudget (config : TokenBudgetConfig) (st : PoolState) : PoolState :=
  let budget := calculateTokenBudget st.lastMemoryStatus config
  let usedTokens := st.totalTokens - st.availableTokens
  { st with
    totalTokens := budget.totalTokens
    availableTokens := max 0 (budget.totalTokens - usedTokens)
    throttleLevel := budget.throttleLevel }

/-- Method `TokenPool.CalculateRecommendedParallelism` (TokenPool.cs lines
225–229). -/
def calculateRecommendedParallelism (config : TokenBudgetConfig)
    (st : PoolState) : ℤ :=
  (calculateTokenBudget st.lastMemoryStatus config).recommendedParallelism

/-- Outcome of one pass through the lock-protected body of
`TokenPool.TryAcquireAsync` (TokenPool.cs lines 59–108): a denial, a
grant, or fall-through to the delay-and-retry path (`spin`). -/
inductive AcquireStep where
  | denied (reason : String) (recommendedParallelism : ℤ)
  | granted (leaseId : String) (grantedTokens : ℤ)
      (recommendedParallelism : ℤ) (commitRatio : ℚ)
  | spin
deriving DecidableEq, Repr

/-- One evaluation of the lock-protected body of
`TokenPool.TryAcquireAsync` (TokenPool.cs lines 59–108): refresh the
snapshot (`snap` is the value `GetMemoryStatus()` returned), recompute
the budget, check the hard stop, then attempt a grant.  `newLeaseId` is
the fresh GUID-derived id of line 81 and `now` the value of
`DateTime.UtcNow`. -/
def tryAcquireStep (config : TokenBudgetConfig) (tool : String)
    (requestedTokens : ℤ) (snap : MemoryStatus) (newLeaseId : String)
    (now : ℤ) (st : PoolState) : AcquireStep × PoolState :=
  let st := recalculateBudget config { st with lastMemoryStatus := snap }
  if st.throttleLevel = .HardStop then
    (.denied
      ("System under memory pressure (commit " ++
        toString st.lastMemoryStatus.commitRatio ++ "). Hard stop active.")
      (calculateRecommendedParallelism config st), st)
  else
    let grantedTokens := min requestedTokens st.availableTokens
    if grantedTokens > 0 ∨ requestedTokens = 0 then
      let lease : Lease :=
        { leaseId := newLeaseId
          tool := tool
          tokens := grantedTokens
          acquiredAt := now
          expiresAt := now + leaseTimeoutMs
          commitRatioAtAcquire := st.lastMemoryStatus.commitRatio }
      (.granted newLeaseId grantedTokens
        (calculateRecommendedParallelism config st)
        st.lastMemoryStatus.commitRatio,
       { st with
         activeLeases := (newLeaseId, lease) :: st.activeLeases
         availableTokens := st.availableTokens - grantedTokens })
    else
      (.spin, st)

/-- `TokenReleaseResult` record (TokenPool.cs lines 326–333).  The
`Classification` field defaults to the enum's zero value `Success` when
the release is unacknowledged, as in the source. -/
structure TokenReleaseResult where
  acknowledged : Bool
  classification : FailureClassification := .Success
  message : Option String := none
  shouldRetry : Bool := false
  retryWithTokens : Option ℤ := none
deriving DecidableEq, Repr

/-- Method `TokenPool.ReleaseAsync` (TokenPool.cs lines 132–182): `snap` is the
snapshot `GetMemoryStatus()` returns on line 151.  C# integer division
truncates toward zero, hence `Int.tdiv`. -/
def releaseStep (config : TokenBudgetConfig) (snap : MemoryStatus)
    (leaseId : String) (peakWorkingSetBytes peakCommitBytes : ℤ)
    (exitCode durationMs : ℤ) (stderrHadDiagnostics : Bool)
    (st : PoolState) : TokenReleaseResult × PoolState :=
  match findLease leaseId st.activeLeases with
  | none => ({ acknowledged := false }, st)
  | some lease =>
    let st := { st with
      activeLeases := dropLease leaseId st.activeLeases
      availableTokens := st.availableTokens + lease.tokens
      lastMemoryStatus := snap }
    let input : ClassificationInput :=
      { exitCode := exitCode
        durationMs := durationMs
        commitRatioAtExit := snap.commitRatio
        peakCommitRatioDuringExecution :=
          max lease.commitRatioAtAcquire snap.commitRatio
        peakProcessCommitGb := (peakCommitBytes : ℚ) / bytesPerGb
        stderrHadDiagnostics := stderrHadDiagnostics
        commitChargeGb := (snap.commitChargeBytes : ℚ) / bytesPerGb
        commitLimitGb := (snap.commitLimitBytes : ℚ) / bytesPerGb
        recommendedParallelism := calculateRecommendedParallelism config st }
    let c := classify input
    ({ acknowledged := true
       classification := c.classification
       message := c.message
       shouldRetry := c.shouldRetry
       retryWithTokens :=
         if c.shouldRetry then some (max 1 (Int.tdiv lease.tokens 2)) else none },
     st)

/-- The warning pass of `TokenPool.CheckExpiredLeases` on one surviving
lease (TokenPool.cs lines 243–255): set `warningLogged` once the lease
has run past the warning threshold. -/
def markWarning (now : ℤ) (l : Lease) : Lease :=
  if now ≥ l.acquiredAt + leaseWarningThresholdMs ∧ !l.warningLogged then
    { l with warningLogged := true }
  else l

/-- Leases surviving `TokenPool.CheckExpiredLeases` (TokenPool.cs lines
237–266): entries past `expiresAt` are removed, the rest get the
warning pass. -/
def sweepLeases (now : ℤ) : LeaseTable → LeaseTable
  | [] => []
  | (k, l) :: rest =>
      if now ≥ l.expiresAt then sweepLeases now rest
      else (k, markWarning now l) :: sweepLeases now rest

/-- Tokens reclaimed by `TokenPool.CheckExpiredLeases` (TokenPool.cs
lines 258–266). -/
def expiredTokens (now : ℤ) : LeaseTable → ℤ
  | [] => 0
  | (_, l) :: rest =>
      (if now ≥ l.expiresAt then l.tokens else 0) + expiredTokens now rest

/-- Number of leases reclaimed by `TokenPool.CheckExpiredLeases`. -/
def expiredCountOf (now : ℤ) : LeaseTable → ℤ
  | [] => 0
  | (_, l) :: rest =>
      (if now ≥ l.expiresAt then 1 else 0) + expiredCountOf now rest

/-- Method `TokenPool.CheckExpiredLeases` (TokenPool.cs lines 231–267). -/
def checkExpiredLeases (now : ℤ) (st : PoolState) : PoolState :=
  { st with
    activeLeases := sweepLeases now st.activeLeases
    availableTokens := st.availableTokens + expiredTokens now st.activeLeases
    expiredLeaseCount := st.expiredLeaseCount + expiredCountOf now st.activeLeases }

/-- One iteration of `TokenPool.MonitorLoopAsync` (TokenPool.cs lines
275–287): refresh the snapshot, recompute the budget, sweep expired
leases. -/
def monitorTick (config : TokenBudgetConfig) (snap : MemoryStatus) (now : ℤ)
    (st : PoolState) : PoolState :=
  checkExpiredLeases now (recalculateBudget config { st with lastMemoryStatus := snap })

/-- The `TokenPool` constructor (TokenPool.cs lines 28–37): C# zero
defaults for the token fields, then the initial snapshot and
`RecalculateBudget()`. -/
def mkPool (config : TokenBudgetConfig) (snap : MemoryStatus) : PoolState :=
  recalculateBudget config
    { totalTokens := 0
      availableTokens := 0
      activeLeases := []
      throttleLevel := .Normal
      lastMemoryStatus := snap
      expiredLeaseCount := 0 }

/-! Section: Memory probe (`Gov.Common/WindowsMemoryMetrics.cs` lines 33–57) -/

/-- The `MEMORYSTATUSEX` struct filled in by `GlobalMemoryStatusEx`
(WindowsMemoryMetrics.cs lines 12–24); every counter is a C# `ulong`,
so each field is a natural number below `2^64`. -/
structure MemoryStatusEx where
  dwMemoryLoad : ℕ
  ullTotalPhys : ℕ
  ullAvailPhys : ℕ
  ullTotalPageFile : ℕ
  ullAvailPageFile : ℕ
deriving DecidableEq, Repr

/-- Wrapping C# `ulong` subtraction `a - b`, wrapping modulo `2^64`
(for `a, b < 2^64`). -/
def usub64 (a b : ℕ) : ℕ := (a + 2 ^ 64 - b) % 2 ^ 64

/-- The C# cast `(long)` applied to a `ulong` value below `2^64`:
two's-complement reinterpretation. -/
def int64OfUInt64 (n : ℕ) : ℤ :=
  if n < 2 ^ 63 then (n : ℤ) else (n : ℤ) - 2 ^ 64

/-- The successful path of `WindowsMemoryMetrics.GetMemoryStatus`
(WindowsMemoryMetrics.cs lines 42–56): commit charge is
`TotalPageFile - AvailPageFile` (ulong arithmetic), commit limit is
`TotalPageFile`, and the ratio guards against a zero limit. -/
def getMemoryStatus (m : MemoryStatusEx) : MemoryStatus :=
  let commitCharge : ℕ := usub64 m.ullTotalPageFile m.ullAvailPageFile
  let commitLimit : ℕ := m.ullTotalPageFile
  let commitRatio : ℚ :=
    if commitLimit > 0 then (commitCharge : ℚ) / (commitLimit : ℚ) else 0
  { totalPhysicalBytes := int64OfUInt64 m.ullTotalPhys
    availablePhysicalBytes := int64OfUInt64 m.ullAvailPhys
    commitChargeBytes := int64OfUInt64 commitCharge
    commitLimitBytes := int64OfUInt64 commitLimit
    commitRatio := commitRatio
    memoryLoadPercent := (m.dwMemoryLoad : ℤ) }

/-- Method `WindowsMemoryMetrics.GetMemoryStatus` including its failure path
(WindowsMemoryMetrics.cs lines 33–57): when `GlobalMemoryStatusEx`
returns false (`none`), the method throws
`InvalidOperationException` — there is no fallback value. -/
def probeMemoryStatus (osCall : Option MemoryStatusEx) :
    Except String MemoryStatus :=
  match osCall with
  | none => .error "GlobalMemoryStatusEx failed"
  | some m => .ok (getMemoryStatus m)

/-! Section: Acquire loop, pipe server and startup -/

/-- Final outcome of `TokenPool.TryAcquireAsync`
(TokenPool.cs lines 49–127), i.e. a `TokenAcquireResult`. -/
inductive AcquireResult where
  | denied (reason : String) (recommendedParallelism : ℤ)
  | granted (leaseId : String) (grantedTokens : ℤ)
      (recommendedParallelism : ℤ) (commitRatio : ℚ)
deriving DecidableEq, Repr

/-- The timeout denial built after the `while` loop of
`TokenPool.TryAcquireAsync` (TokenPool.cs lines 121–126). -/
def timeoutDenied (config : TokenBudgetConfig) (st : PoolState) : AcquireResult :=
  .denied "Timeout waiting for available tokens"
    (calculateRecommendedParallelism config st)

/-- The `while (DateTime.UtcNow < deadline)` loop of
`TokenPool.TryAcquireAsync` (TokenPool.cs lines 55–127).
`deadline = startTime + timeoutMs` (line 55); `times i` is the clock
value at the i-th loop-condition check, `snaps i` and `leaseIds i` the
snapshot and fresh lease id of the i-th iteration.  `fuel` bounds the
number of observed iterations (the source loop is bounded by the
deadline in real time); cancellation is not modelled. -/
def tryAcquireLoop (config : TokenBudgetConfig) (tool : String)
    (requestedTokens timeoutMs startTime : ℤ) (times : ℕ → ℤ)
    (snaps : ℕ → MemoryStatus) (leaseIds : ℕ → String) :
    ℕ → ℕ → PoolState → AcquireResult × PoolState
  | 0, _, st => (timeoutDenied config st, st)
  | fuel + 1, i, st =>
    if times i < startTime + timeoutMs then
      match tryAcquireStep config tool requestedTokens (snaps i) (leaseIds i)
          (times i) st with
      | (.denied reason p, st') => (.denied reason p, st')
      | (.granted l g p c, st') => (.granted l g p c, st')
      | (.spin, st') =>
          tryAcquireLoop config tool requestedTokens timeoutMs startTime times
            snaps leaseIds fuel (i + 1) st'
    else
      (timeoutDenied config st, st)

/-- Method `TokenPool.TryAcquireAsync` with the memory probe's failure path
(TokenPool.cs line 63): `GetMemoryStatus()` throwing inside the lock
propagates out of the method (the `try/finally` only releases the
lock); nothing is mutated and no fallback snapshot is substituted. -/
def tryAcquireStepProbed (config : TokenBudgetConfig) (tool : String)
    (requestedTokens : ℤ) (probe : Except String MemoryStatus)
    (newLeaseId : String) (now : ℤ) (st : PoolState) :
    Except String (AcquireStep × PoolState) :=
  match probe with
  | .error e => .error e
  | .ok snap => .ok (tryAcquireStep config tool requestedTokens snap newLeaseId now st)

/-- A reply produced by `PipeServer.ProcessMessageAsync`
(PipeServer.cs lines 98–118): either a typed response or the
`{"error": ...}` object built by the catch-all handler. -/
inductive ServerReply where
  | acquireReply (step : AcquireStep)
  | errorReply (message : String)
deriving DecidableEq, Repr

/-- Method `PipeServer.HandleAcquireAsync` under `ProcessMessageAsync`'s
catch-all (PipeServer.cs lines 98–150): an exception escaping
`TryAcquireAsync` — e.g. a probe failure — becomes an error reply and
the pool state is left as it was. -/
def processAcquireMessage (config : TokenBudgetConfig) (tool : String)
    (requestedTokens : ℤ) (probe : Except String MemoryStatus)
    (newLeaseId : String) (now : ℤ) (st : PoolState) :
    ServerReply × PoolState :=
  match tryAcquireStepProbed config tool requestedTokens probe newLeaseId now st with
  | .error e => (.errorReply e, st)
  | .ok (step, st') => (.acquireReply step, st')

/-- The heartbeat reply object `{alive, timestamp}` serialized by
`PipeServer.HandleHeartbeat` (PipeServer.cs lines 199–202). -/
structure HeartbeatReply where
  alive : Bool
  timestamp : ℤ
deriving DecidableEq, Repr

/-- Method `PipeServer.HandleHeartbeat` (PipeServer.cs lines 199–202): the
handler takes no request data and consults nothing — it always
serializes `{alive = true, timestamp = DateTime.UtcNow}`. -/
def handleHeartbeat (now : ℤ) : HeartbeatReply :=
  { alive := true, timestamp := now }

/-- A `heartbeat` message processed by the server: the request carries
a `LeaseId` (Gov.Protocol/Messages.cs lines 71–74) and the server owns
the pool, but `HandleHeartbeat` ignores both and the pool is left
untouched. -/
def processHeartbeatMessage (leaseId : String) (now : ℤ) (st : PoolState) :
    HeartbeatReply × PoolState :=
  (handleHeartbeat now, st)

/-- The configuration constructed by `Gov.Service/Program.cs`
lines 59–69 — the only configuration a running governor ever uses. -/
def programConfig : TokenBudgetConfig :=
  { gbPerToken := 2.0
    safetyReserveGb := 8.0
    minTokens := 1
    maxTokens := 32
    cautionRatio := 0.80
    softStopRatio := 0.88
    hardStopRatio := 0.92 }

/-- Governor startup for a given configuration
(Gov.Service/Program.cs lines 31–71): take the initial snapshot (an
unhandled probe failure aborts startup) and construct the `TokenPool`.
Neither `Program.cs` nor the `TokenPool` constructor nor
`TokenBudgetConfig` itself performs any validation of the threshold
ordering — every configuration is accepted. -/
def startGovernor (config : TokenBudgetConfig)
    (probe : Except String MemoryStatus) : Except String PoolState :=
  match probe with
  | .error e => .error e
  | .ok snap => .ok (mkPool config snap)

/-! Section: concrete fixtures used by witnesses and counterexamples -/

/-- A calm snapshot: 64 GiB commit limit, 36 GiB charged
(ratio 36/64 = 0.5625, below every default threshold). -/
def snapCalm : MemoryStatus :=
  { totalPhysicalBytes := 64 * 2 ^ 30
    availablePhysicalBytes := 28 * 2 ^ 30
    commitChargeBytes := 36 * 2 ^ 30
    commitLimitBytes := 64 * 2 ^ 30
    commitRatio := 0.5625
    memoryLoadPercent := 56 }

/-- A pressured snapshot: 64 GiB commit limit, 54 GiB charged
(ratio 54/64 = 0.84375, in the Caution band of the defaults). -/
def snapPressure : MemoryStatus :=
  { totalPhysicalBytes := 64 * 2 ^ 30
    availablePhysicalBytes := 6 * 2 ^ 30
    commitChargeBytes := 54 * 2 ^ 30
    commitLimitBytes := 64 * 2 ^ 30
    commitRatio := 0.84375
    memoryLoadPercent := 84 }

/-! Section: helper lemmas -/

theorem clampInt_eq_min_max (value lo hi : ℤ) (h : lo ≤ hi) :
    clampInt value lo hi = min (max value lo) hi := by
  unfold clampInt
  rcases le_total value lo with h1 | h1 <;> rcases le_total value hi with h2 | h2 <;>
    split_ifs <;> omega

theorem clampInt_bounds (value lo hi : ℤ) (h : lo ≤ hi) :
    lo ≤ clampInt value lo hi ∧ clampInt value lo hi ≤ hi := by
  unfold clampInt
  split_ifs <;> omega

theorem findLease_dropLease (leaseId : String) (t : LeaseTable) :
    findLease leaseId (dropLease leaseId t) = none := by
  induction t with
  | nil => rfl
  | cons p rest ih =>
    obtain ⟨k, l⟩ := p
    by_cases hk : k = leaseId <;> simp [dropLease, findLease, hk, ih]

theorem findLease_mem (leaseId : String) (t : LeaseTable) (l : Lease)
    (h : findLease leaseId t = some l) : (leaseId, l) ∈ t := by
  induction t with
  | nil => simp [findLease] at h
  | cons p rest ih =>
    obtain ⟨k, l'⟩ := p
    by_cases hk : k = leaseId
    · subst hk
      rw [findLease, if_pos rfl] at h
      injection h with h
      subst h
      exact List.mem_cons_self _ _
    · simp only [findLease, if_neg hk] at h
      exact List.mem_cons_of_mem _ (ih h)

theorem mem_dropLease (leaseId : String) (t : LeaseTable) (p : String × Lease)
    (h : p ∈ dropLease leaseId t) : p ∈ t := by
  induction t with
  | nil => simp [dropLease] at h
  | cons q rest ih =>
    obtain ⟨k, l⟩ := q
    by_cases hk : k = leaseId
    · simp only [dropLease, if_pos hk] at h
      exact List.mem_cons_of_mem _ (ih h)
    · simp only [dropLease, if_neg hk, List.mem_cons] at h
      rcases h with h | h
      · exact h ▸ List.mem_cons_self _ _
      · exact List.mem_cons_of_mem _ (ih h)

theorem mem_sweepLeases (now : ℤ) (t : LeaseTable) (p : String × Lease)
    (h : p ∈ sweepLeases now t) :
    ∃ q ∈ t, p.1 = q.1 ∧ p.2.tokens = q.2.tokens := by
  induction t with
  | nil => simp [sweepLeases] at h
  | cons q rest ih =>
    obtain ⟨k, l⟩ := q
    by_cases hk : now ≥ l.expiresAt
    · simp only [sweepLeases, if_pos hk] at h
      obtain ⟨q, hq, hfst, hsnd⟩ := ih h
      exact ⟨q, List.mem_cons_of_mem _ hq, hfst, hsnd⟩
    · simp only [sweepLeases, if_neg hk, List.mem_cons] at h
      rcases h with h | h
      · refine ⟨(k, l), List.mem_cons_self _ _, ?_, ?_⟩ <;>
          · subst h
            unfold markWarning
            split_ifs <;> rfl
      · obtain ⟨q, hq, hfst, hsnd⟩ := ih h
        exact ⟨q, List.mem_cons_of_mem _ hq, hfst, hsnd⟩

theorem expiredTokens_nonneg (now : ℤ) (t : LeaseTable)
    (h : ∀ p ∈ t, 0 ≤ p.2.tokens) : 0 ≤ expiredTokens now t := by
  induction t with
  | nil => simp [expiredTokens]
  | cons q rest ih =>
    obtain ⟨k, l⟩ := q
    have h1 : 0 ≤ l.tokens := h (k, l) (List.mem_cons_self _ _)
    have h2 : 0 ≤ expiredTokens now rest :=
      ih fun p hp => h p (List.mem_cons_of_mem _ hp)
    unfold expiredTokens
    split_ifs <;> omega

/-! Section: C1, the budget computation -/

/-- The spec's description of `CalculateTokenBudget` at one input:
`available_commit_gb = (commit_limit - commit_charge) / 2^30`;
`usable = max(0, available_commit_gb - safety_reserve_gb)`;
`total_tokens = clamp(floor(usable / gb_per_token), min_tokens, max_tokens)`;
the throttle band; and
`recommended_parallelism = max(1, floor(usable / 3.0))`. -/
def BudgetMatchesSpec (status : MemoryStatus) (config : TokenBudgetConfig) : Prop :=
  let availableCommitGb : ℚ :=
    ((status.commitLimitBytes - status.commitChargeBytes : ℤ) : ℚ) / 2 ^ 30
  let usable : ℚ := max 0 (availableCommitGb - config.safetyReserveGb)
  let b := calculateTokenBudget status config
  b.availableCommitGb = availableCommitGb ∧
  b.totalTokens =
    min (max ⌊usable / config.gbPerToken⌋ config.minTokens) config.maxTokens ∧
  (b.throttleLevel = .HardStop ↔ status.commitRatio ≥ config.hardStopRatio) ∧
  (b.throttleLevel = .SoftStop ↔
    ¬status.commitRatio ≥ config.hardStopRatio ∧
      status.commitRatio ≥ config.softStopRatio) ∧
  (b.throttleLevel = .Caution ↔
    ¬status.commitRatio ≥ config.hardStopRatio ∧
      ¬status.commitRatio ≥ config.softStopRatio ∧
      status.commitRatio ≥ config.cautionRatio) ∧
  (b.throttleLevel = .Normal ↔
    ¬status.commitRatio ≥ config.hardStopRatio ∧
      ¬status.commitRatio ≥ config.softStopRatio ∧
      ¬status.commitRatio ≥ config.cautionRatio) ∧
  b.recommendedParallelism = max 1 ⌊usable / 3⌋

/-- C1. `CalculateTokenBudget` is a pure function of `(status, config)`
and computes exactly the spec's formulas: the commit headroom in GB, the
clamped token count, the four-way throttle band on `commit_ratio`, and
`max(1, floor(usable / 3.0))` as the recommended parallelism.  (The
clamp hypothesis `min_tokens ≤ max_tokens` is the precondition of
`Math.Clamp` itself.) -/
theorem calculateTokenBudget_meets_spec (status : MemoryStatus)
    (config : TokenBudgetConfig) (h : config.minTokens ≤ config.maxTokens) :
    BudgetMatchesSpec status config := by
  have hb : bytesPerGb = (2 : ℚ) ^ 30 := by norm_num [bytesPerGb]
  unfold BudgetMatchesSpec calculateTokenBudget
  rw [hb]
  refine ⟨rfl, clampInt_eq_min_max _ _ _ h, ?_, ?_, ?_, ?_, rfl⟩ <;>
    · split_ifs <;> simp_all

/-- Witness for C1 at the calm snapshot and the shipped configuration. -/
theorem calculateTokenBudget_meets_spec_witness :
    programConfig.minTokens ≤ programConfig.maxTokens ∧
      BudgetMatchesSpec snapCalm programConfig :=
  ⟨by norm_num [programConfig],
   calculateTokenBudget_meets_spec snapCalm programConfig
     (by norm_num [programConfig])⟩

/-! Section: C2, one acquire evaluation under the pool lock -/

/-- The spec's description of one lock-protected acquire evaluation:
deny (state untouched beyond the recompute) on `HardStop`; otherwise
`granted = min(requested, available)` and, whenever `granted > 0` or
`requested = 0`, insert a lease holding exactly `granted` tokens,
decrement `available_tokens` by `granted`, and answer with the lease
id, granted count, recommended parallelism and commit ratio; in the
remaining case fall through to the retry path. -/
def AcquireMatchesSpec (config : TokenBudgetConfig) (tool : String)
    (requestedTokens : ℤ) (snap : MemoryStatus) (newLeaseId : String)
    (now : ℤ) (st : PoolState) : Prop :=
  let st1 := recalculateBudget config { st with lastMemoryStatus := snap }
  let r := tryAcquireStep config tool requestedTokens snap newLeaseId now st
  let granted := min requestedTokens st1.availableTokens
  (st1.throttleLevel = .HardStop →
    r.1 = .denied
        ("System under memory pressure (commit " ++ toString snap.commitRatio ++
          "). Hard stop active.")
        (calculateRecommendedParallelism config st1) ∧
    r.2 = st1) ∧
  (st1.throttleLevel ≠ .HardStop → granted > 0 ∨ requestedTokens = 0 →
    r.1 = .granted newLeaseId granted (calculateRecommendedParallelism config st1)
        snap.commitRatio ∧
    r.2.availableTokens = st1.availableTokens - granted ∧
    r.2.totalTokens = st1.totalTokens ∧
    findLease newLeaseId r.2.activeLeases = some
      { leaseId := newLeaseId
        tool := tool
        tokens := granted
        acquiredAt := now
        expiresAt := now + leaseTimeoutMs
        commitRatioAtAcquire := snap.commitRatio }) ∧
  (st1.throttleLevel ≠ .HardStop → ¬(granted > 0 ∨ requestedTokens = 0) →
    r.1 = .spin ∧ r.2 = st1)

/-- C2. Every acquire evaluation under the pool lock follows the spec:
a freshly recomputed `HardStop` denies with no lease created and the
token counts untouched; otherwise `granted = min(requested, available)`
and, whenever `granted > 0` or `requested_tokens = 0`, a lease holding
exactly `granted` tokens is inserted, `available_tokens` drops by
exactly `granted`, and the response carries the lease id, granted
tokens, recommended parallelism and commit ratio. -/
theorem tryAcquireStep_meets_spec (config : TokenBudgetConfig) (tool : String)
    (requestedTokens : ℤ) (snap : MemoryStatus) (newLeaseId : String)
    (now : ℤ) (st : PoolState) :
    AcquireMatchesSpec config tool requestedTokens snap newLeaseId now st := by
  unfold AcquireMatchesSpec
  simp only [tryAcquireStep]
  split_ifs with h1 h2
  · exact ⟨fun _ => ⟨rfl, rfl⟩, fun hn _ => absurd h1 hn, fun hn _ => absurd h1 hn⟩
  · refine ⟨fun hh => absurd hh h1,
      fun _ _ => ⟨?_, rfl, rfl, by simp [findLease, recalculateBudget]⟩,
      fun _ hn => absurd h2 hn⟩
    simp [recalculateBudget]
  · exact ⟨fun hh => absurd hh h1, fun _ hg => absurd hg h2, fun _ _ => ⟨rfl, rfl⟩⟩

/-- Witness for C2: on the calm snapshot with 10 available tokens, a
5-token request is granted 5 tokens with recommended parallelism 6 and
commit ratio 0.5625. -/
theorem tryAcquireStep_meets_spec_witness :
    (tryAcquireStep programConfig "cl" 5 snapCalm "aaaabbbbcccc" 0
        (mkPool programConfig snapCalm)).1 =
      .granted "aaaabbbbcccc" 5 6 0.5625 := by
  have hbudget : calculateTokenBudget snapCalm programConfig =
      { totalTokens := 10
        throttleLevel := .Normal
        recommendedParallelism := 6
        availableCommitGb := 28 } := by
    simp only [calculateTokenBudget, clampInt, snapCalm, programConfig, bytesPerGb]
    norm_num
  have hpool : mkPool programConfig snapCalm =
      { totalTokens := 10
        availableTokens := 10
        activeLeases := []
        throttleLevel := .Normal
        lastMemoryStatus := snapCalm
        expiredLeaseCount := 0 } := by
    simp only [mkPool, recalculateBudget, hbudget]
    norm_num
  have hst1 : recalculateBudget programConfig
      { mkPool programConfig snapCalm with lastMemoryStatus := snapCalm } =
      { totalTokens := 10
        availableTokens := 10
        activeLeases := []
        throttleLevel := .Normal
        lastMemoryStatus := snapCalm
        expiredLeaseCount := 0 } := by
    rw [hpool]
    simp only [recalculateBudget, hbudget]
    norm_num
  have hspec := tryAcquireStep_meets_spec programConfig "cl" 5 snapCalm
    "aaaabbbbcccc" 0 (mkPool programConfig snapCalm)
  unfold AcquireMatchesSpec at hspec
  rw [hst1] at hspec
  have h := hspec.2.1 (by simp) (Or.inl (by norm_num))
  rw [h.1]
  have hpar : calculateRecommendedParallelism programConfig
      { totalTokens := 10
        availableTokens := 10
        activeLeases := []
        throttleLevel := .Normal
        lastMemoryStatus := snapCalm
        expiredLeaseCount := 0 } = 6 := by
    simp [calculateRecommendedParallelism, hbudget]
  rw [hpar]
  norm_num [snapCalm]

/-! Section: C3, the failure classifier -/

/-- The spec's description of `Classify`: `Success` with no message and
no retry on exit 0; otherwise the evidence bands decide the
classification, the retry flag, and the presence and shape of the
message. -/
def ClassifyMatchesSpec (input : ClassificationInput) : Prop :=
  let r := classify input
  let e := oomEvidence input
  oomEvidence input =
    (if input.commitRatioAtExit ≥ 0.92 then (0.40 : ℚ)
     else if input.commitRatioAtExit ≥ 0.88 then 0.25 else 0)
    + (if input.peakCommitRatioDuringExecution ≥ 0.95 then (0.30 : ℚ) else 0)
    + (if input.peakProcessCommitGb ≥ 2.5 then (0.20 : ℚ) else 0)
    + (if input.stderrHadDiagnostics = false then (0.20 : ℚ) else 0)
    + (if input.durationMs < 5000 ∧ input.peakProcessCommitGb ≥ 1.5 then (0.15 : ℚ)
       else 0) ∧
  (input.exitCode = 0 →
    r = { classification := .Success
          message := none
          shouldRetry := false
          confidence := 1 }) ∧
  (input.exitCode ≠ 0 →
    (r.classification = .LikelyOOM ↔ e ≥ 0.6) ∧
    (r.classification = .LikelyPagingDeath ↔ 0.4 ≤ e ∧ e < 0.6) ∧
    (r.classification = .NormalCompileError ↔
      e < 0.4 ∧ input.stderrHadDiagnostics = true) ∧
    (r.classification = .Unknown ↔ e < 0.4 ∧ input.stderrHadDiagnostics = false) ∧
    (r.shouldRetry = true ↔ e ≥ 0.4) ∧
    (r.classification = .LikelyOOM →
      r.message = some (formatOomMessage input (oomReasons input))) ∧
    (r.classification = .LikelyPagingDeath →
      r.message = some (formatPagingMessage input (oomReasons input))) ∧
    (r.classification = .NormalCompileError → r.message = none) ∧
    (r.classification = .Unknown →
      r.message = some ("Build failed (exit code " ++ toString input.exitCode ++
        "). Unable to determine cause.")))

/-- C3. `Classify` follows the spec on every input: exit 0 short-circuits
to `Success` with no message and no retry; otherwise the accumulated
`oom_evidence` (the claimed sum of 0.40/0.25, 0.30, 0.20, 0.20 and 0.15
contributions) selects `LikelyOOM` (message, retry) at ≥ 0.60,
`LikelyPagingDeath` (message, retry) in [0.40, 0.60), else
`NormalCompileError` (no message, no retry) when stderr had
diagnostics, else `Unknown` (generic message, no retry). -/
theorem classify_meets_spec (input : ClassificationInput) :
    ClassifyMatchesSpec input := by
  unfold ClassifyMatchesSpec
  refine ⟨by norm_num [oomEvidence], ?_, ?_⟩
  · intro h0
    simp [classify, h0]
  · intro h0
    simp only [classify, if_neg h0]
    split_ifs with h1 h2 h3 <;>
      refine ⟨?_, ?_, ?_, ?_, ?_, ?_, ?_, ?_, ?_⟩ <;>
        simp_all <;>
          first
            | linarith
            | (intro h; linarith)

/-- Witness for C3: an exit-1 run at commit ratio 0.93 with a 3.1 GB
silent peak accumulates evidence 1.25 and is classified `LikelyOOM`
with retry. -/
theorem classify_meets_spec_witness :
    (classify { exitCode := 1
                durationMs := 4200
                commitRatioAtExit := 0.93
                peakCommitRatioDuringExecution := 0.95
                peakProcessCommitGb := 3.1
                stderrHadDiagnostics := false
                commitChargeGb := 44.6
                commitLimitGb := 48
                recommendedParallelism := 4 }).classification = .LikelyOOM ∧
    (classify { exitCode := 1
                durationMs := 4200
                commitRatioAtExit := 0.93
                peakCommitRatioDuringExecution := 0.95
                peakProcessCommitGb := 3.1
                stderrHadDiagnostics := false
                commitChargeGb := 44.6
                commitLimitGb := 48
                recommendedParallelism := 4 }).shouldRetry = true := by
  have hspec := classify_meets_spec
    { exitCode := 1
      durationMs := 4200
      commitRatioAtExit := 0.93
      peakCommitRatioDuringExecution := 0.95
      peakProcessCommitGb := 3.1
      stderrHadDiagnostics := false
      commitChargeGb := 44.6
      commitLimitGb := 48
      recommendedParallelism := 4 }
  unfold ClassifyMatchesSpec at hspec
  obtain ⟨-, -, hband⟩ := hspec
  have he : oomEvidence
      { exitCode := 1
        durationMs := 4200
        commitRatioAtExit := 0.93
        peakCommitRatioDuringExecution := 0.95
        peakProcessCommitGb := 3.1
        stderrHadDiagnostics := false
        commitChargeGb := 44.6
        commitLimitGb := 48
        recommendedParallelism := 4 } = 1.25 := by
    norm_num [oomEvidence]
  obtain ⟨hoom, -, -, -, hretry, -⟩ := hband (by norm_num)
  refine ⟨hoom.mpr ?_, hretry.mpr ?_⟩ <;> rw [he] <;> norm_num

/-! Section: C6, release -/

/-- The classification input that `ReleaseAsync` hands to the
classifier for a removed `lease`, per the spec: the lease's
`commit_ratio_at_acquire` joined with the fresh snapshot. -/
def releaseInput (config : TokenBudgetConfig) (snap : MemoryStatus)
    (lease : Lease) (peakCommitBytes exitCode durationMs : ℤ)
    (stderrHadDiagnostics : Bool) : ClassificationInput :=
  { exitCode := exitCode
    durationMs := durationMs
    commitRatioAtExit := snap.commitRatio
    peakCommitRatioDuringExecution :=
      max lease.commitRatioAtAcquire snap.commitRatio
    peakProcessCommitGb := (peakCommitBytes : ℚ) / bytesPerGb
    stderrHadDiagnostics := stderrHadDiagnostics
    commitChargeGb := (snap.commitChargeBytes : ℚ) / bytesPerGb
    commitLimitGb := (snap.commitLimitBytes : ℚ) / bytesPerGb
    recommendedParallelism :=
      (calculateTokenBudget snap config).recommendedParallelism }

/-- The spec's description of `release`: an unknown lease id is
acknowledged `false` with the pool untouched; a known lease is removed,
its tokens return to `available_tokens`, and the reply carries the
classifier's verdict with `retry_with_tokens = max(1, tokens / 2)`
exactly when the classifier says to retry. -/
def ReleaseMatchesSpec (config : TokenBudgetConfig) (snap : MemoryStatus)
    (leaseId : String) (peakWorkingSetBytes peakCommitBytes : ℤ)
    (exitCode durationMs : ℤ) (stderrHadDiagnostics : Bool)
    (st : PoolState) : Prop :=
  let r := releaseStep config snap leaseId peakWorkingSetBytes peakCommitBytes
    exitCode durationMs stderrHadDiagnostics st
  (findLease leaseId st.activeLeases = none →
    r.1 = { acknowledged := false } ∧ r.2 = st) ∧
  (∀ lease, findLease leaseId st.activeLeases = some lease →
    let c := classify (releaseInput config snap lease peakCommitBytes exitCode
      durationMs stderrHadDiagnostics)
    r.1.acknowledged = true ∧
    r.1.classification = c.classification ∧
    r.1.message = c.message ∧
    r.1.shouldRetry = c.shouldRetry ∧
    r.1.retryWithTokens =
      (if c.shouldRetry then some (max 1 (Int.tdiv lease.tokens 2)) else none) ∧
    r.2.availableTokens = st.availableTokens + lease.tokens ∧
    r.2.totalTokens = st.totalTokens ∧
    r.2.activeLeases = dropLease leaseId st.activeLeases ∧
    findLease leaseId r.2.activeLeases = none)

/-- C6. `ReleaseAsync` follows the spec for every call: an unknown
`lease_id` yields `acknowledged = false` with the pool state completely
unchanged; a known lease is removed (no longer found afterwards), its
tokens are added back to `available_tokens`, and the response carries
`acknowledged = true`, the classifier's result, and
`retry_with_tokens = max(1, lease.tokens / 2)` exactly when
`should_retry` is true, `none` otherwise. -/
theorem releaseStep_meets_spec (config : TokenBudgetConfig)
    (snap : MemoryStatus) (leaseId : String)
    (peakWorkingSetBytes peakCommitBytes : ℤ) (exitCode durationMs : ℤ)
    (stderrHadDiagnostics : Bool) (st : PoolState) :
    ReleaseMatchesSpec config snap leaseId peakWorkingSetBytes peakCommitBytes
      exitCode durationMs stderrHadDiagnostics st := by
  unfold ReleaseMatchesSpec
  constructor
  · intro hnone
    simp [releaseStep, hnone]
  · intro lease hsome
    simp [releaseStep, hsome, releaseInput, calculateRecommendedParallelism,
      findLease_dropLease]

/-- Witness for C6: releasing an unknown lease id on a pool with an
empty table is unacknowledged and changes nothing. -/
theorem releaseStep_meets_spec_witness :
    (releaseStep programConfig snapCalm "000000000000" 0 0 1 1000 true
        (mkPool programConfig snapCalm)).1 = { acknowledged := false } ∧
    (releaseStep programConfig snapCalm "000000000000" 0 0 1 1000 true
        (mkPool programConfig snapCalm)).2 = mkPool programConfig snapCalm := by
  have hspec := releaseStep_meets_spec programConfig snapCalm "000000000000"
    0 0 1 1000 true (mkPool programConfig snapCalm)
  unfold ReleaseMatchesSpec at hspec
  exact hspec.1 (by simp [mkPool, recalculateBudget, findLease])

/-! Section: C4, token-count invariants -/

/-- Token-count part of the spec invariant:
`available_tokens ∈ [0, total_tokens]` and
`total_tokens ∈ [min_tokens, max_tokens]`. -/
def TokenInv (config : TokenBudgetConfig) (st : PoolState) : Prop :=
  0 ≤ st.availableTokens ∧ st.availableTokens ≤ st.totalTokens ∧
  config.minTokens ≤ st.totalTokens ∧ st.totalTokens ≤ config.maxTokens

/-- Every lease in the table holds a non-negative token count. -/
def LeasesNonneg (st : PoolState) : Prop :=
  ∀ p ∈ st.activeLeases, 0 ≤ p.2.tokens

theorem calculateTokenBudget_totalTokens_bounds (status : MemoryStatus)
    (config : TokenBudgetConfig) (h : config.minTokens ≤ config.maxTokens) :
    config.minTokens ≤ (calculateTokenBudget status config).totalTokens ∧
    (calculateTokenBudget status config).totalTokens ≤ config.maxTokens := by
  unfold calculateTokenBudget
  exact clampInt_bounds _ _ _ h

/-- Facts a budget recompute guarantees about the token counts (for
`0 ≤ min_tokens ≤ max_tokens`): `available` is never negative, `total`
is clamped into `[min_tokens, max_tokens]`, `available ≤ total` is
preserved when it held before, and a pre-existing excess
`available − total > 0` is carried over unchanged (`usedTokens` is then
negative). -/
theorem recalculateBudget_facts (config : TokenBudgetConfig) (st : PoolState)
    (h0 : 0 ≤ config.minTokens) (h1 : config.minTokens ≤ config.maxTokens) :
    0 ≤ (recalculateBudget config st).availableTokens ∧
    config.minTokens ≤ (recalculateBudget config st).totalTokens ∧
    (recalculateBudget config st).totalTokens ≤ config.maxTokens ∧
    (st.availableTokens ≤ st.totalTokens →
      (recalculateBudget config st).availableTokens ≤
        (recalculateBudget config st).totalTokens) ∧
    (st.totalTokens < st.availableTokens →
      (recalculateBudget config st).availableTokens -
          (recalculateBudget config st).totalTokens =
        st.availableTokens - st.totalTokens) := by
  obtain ⟨hlo, hhi⟩ :=
    calculateTokenBudget_totalTokens_bounds st.lastMemoryStatus config h1
  unfold recalculateBudget
  simp only
  refine ⟨le_max_left _ _, hlo, hhi, ?_, ?_⟩ <;>
    · intro h
      rw [max_def]
      split_ifs <;> omega

/-- C4 (amended). What actually holds of the token counts, operation by
operation (given `0 ≤ min_tokens ≤ max_tokens` and non-negative lease
holdings): a budget recompute always leaves `0 ≤ available` and
`total ∈ [min_tokens, max_tokens]`; it preserves `available ≤ total`
when that held before, and when it was already violated it carries the
excess `available − total` over unchanged (`usedTokens` goes negative),
so a violation is permanent rather than repaired at the next recompute;
an acquire evaluation likewise always leaves `0 ≤ available` and the
`total` bounds, inserts only non-negative leases, and preserves
`available ≤ total` when it held; the maintenance tick keeps
`0 ≤ available`, the `total` bounds and lease non-negativity, and keeps
any existing violation strict; a release keeps `0 ≤ available` and
leaves `total` unchanged, but adds the lease's tokens back without any
budget recompute and so can create `available > total` in the first
place (see the counterexample). -/
theorem pool_token_invariants :
    (∀ (config : TokenBudgetConfig) (st : PoolState),
      0 ≤ config.minTokens → config.minTokens ≤ config.maxTokens →
      (0 ≤ (recalculateBudget config st).availableTokens ∧
       config.minTokens ≤ (recalculateBudget config st).totalTokens ∧
       (recalculateBudget config st).totalTokens ≤ config.maxTokens) ∧
      (st.availableTokens ≤ st.totalTokens →
        (recalculateBudget config st).availableTokens ≤
          (recalculateBudget config st).totalTokens) ∧
      (st.totalTokens < st.availableTokens →
        (recalculateBudget config st).availableTokens -
            (recalculateBudget config st).totalTokens =
          st.availableTokens - st.totalTokens)) ∧
    (∀ (config : TokenBudgetConfig) (tool : String) (requestedTokens : ℤ)
      (snap : MemoryStatus) (newLeaseId : String) (now : ℤ) (st : PoolState),
      0 ≤ config.minTokens → config.minTokens ≤ config.maxTokens →
      LeasesNonneg st →
      (0 ≤ (tryAcquireStep config tool requestedTokens snap newLeaseId now
          st).2.availableTokens ∧
       config.minTokens ≤ (tryAcquireStep config tool requestedTokens snap
          newLeaseId now st).2.totalTokens ∧
       (tryAcquireStep config tool requestedTokens snap newLeaseId now
          st).2.totalTokens ≤ config.maxTokens ∧
       LeasesNonneg
         (tryAcquireStep config tool requestedTokens snap newLeaseId now
           st).2) ∧
      (st.availableTokens ≤ st.totalTokens →
        (tryAcquireStep config tool requestedTokens snap newLeaseId now
            st).2.availableTokens ≤
          (tryAcquireStep config tool requestedTokens snap newLeaseId now
            st).2.totalTokens)) ∧
    (∀ (config : TokenBudgetConfig) (snap : MemoryStatus) (now : ℤ)
      (st : PoolState),
      0 ≤ config.minTokens → config.minTokens ≤ config.maxTokens →
      LeasesNonneg st →
      (0 ≤ (monitorTick config snap now st).availableTokens ∧
       config.minTokens ≤ (monitorTick config snap now st).totalTokens ∧
       (monitorTick config snap now st).totalTokens ≤ config.maxTokens ∧
       LeasesNonneg (monitorTick config snap now st)) ∧
      (st.totalTokens < st.availableTokens →
        (monitorTick config snap now st).totalTokens <
          (monitorTick config snap now st).availableTokens)) ∧
    (∀ (config : TokenBudgetConfig) (snap : MemoryStatus) (leaseId : String)
      (pws pcb exitCode durationMs : ℤ) (shd : Bool) (st : PoolState),
      0 ≤ st.availableTokens → LeasesNonneg st →
      0 ≤ (releaseStep config snap leaseId pws pcb exitCode durationMs shd
          st).2.availableTokens ∧
      (releaseStep config snap leaseId pws pcb exitCode durationMs shd
          st).2.totalTokens = st.totalTokens ∧
      LeasesNonneg (releaseStep config snap leaseId pws pcb exitCode durationMs
          shd st).2) := by
  refine ⟨fun config st h0 h1 => ?_, ?_, ?_, ?_⟩
  · obtain ⟨ha, hlo, hhi, hpres, hexcess⟩ := recalculateBudget_facts config st h0 h1
    exact ⟨⟨ha, hlo, hhi⟩, hpres, hexcess⟩
  · intro config tool requestedTokens snap newLeaseId now st h0 h1 hlease
    obtain ⟨ha, hlo, hhi, hpres, -⟩ :=
      recalculateBudget_facts config { st with lastMemoryStatus := snap } h0 h1
    have hlease' : LeasesNonneg
        (recalculateBudget config { st with lastMemoryStatus := snap }) :=
      fun p hp => hlease p hp
    set st1 := recalculateBudget config { st with lastMemoryStatus := snap }
      with hst1
    simp only [tryAcquireStep, ← hst1]
    split_ifs with hh hg
    · exact ⟨⟨ha, hlo, hhi, hlease'⟩, fun hp => hpres hp⟩
    · constructor
      · refine ⟨?_, hlo, hhi, ?_⟩
        · simp only [PoolState.availableTokens]
          omega
        · intro p hp
          simp only [List.mem_cons] at hp
          rcases hp with hp | hp
          · subst hp
            simp only
            omega
          · exact hlease' p hp
      · intro hp
        have hb := hpres hp
        simp only [PoolState.availableTokens, PoolState.totalTokens]
        omega
    · exact ⟨⟨ha, hlo, hhi, hlease'⟩, fun hp => hpres hp⟩
  · intro config snap now st h0 h1 hlease
    obtain ⟨ha, hlo, hhi, -, hexcess⟩ :=
      recalculateBudget_facts config { st with lastMemoryStatus := snap } h0 h1
    have hlease' : LeasesNonneg
        (recalculateBudget config { st with lastMemoryStatus := snap }) :=
      fun p hp => hlease p hp
    have hexp : 0 ≤ expiredTokens now
        (recalculateBudget config { st with lastMemoryStatus := snap }).activeLeases :=
      expiredTokens_nonneg _ _ hlease'
    refine ⟨⟨?_, hlo, hhi, ?_⟩, ?_⟩
    · simp only [monitorTick, checkExpiredLeases]
      omega
    · intro p hp
      simp only [monitorTick, checkExpiredLeases] at hp
      obtain ⟨q, hq, -, htok⟩ := mem_sweepLeases now _ p hp
      rw [htok]
      exact hlease' q hq
    · intro hlt
      have hex := hexcess hlt
      simp only at hex
      simp only [monitorTick, checkExpiredLeases]
      omega
  · intro config snap leaseId pws pcb exitCode durationMs shd st h2 hlease
    cases hfind : findLease leaseId st.activeLeases with
    | none =>
      simp only [releaseStep, hfind]
      exact ⟨h2, trivial, hlease⟩
    | some lease =>
      have htok : 0 ≤ lease.tokens :=
        hlease _ (findLease_mem leaseId st.activeLeases lease hfind)
      have hred : (releaseStep config snap leaseId pws pcb exitCode durationMs
          shd st).2 =
          { st with
            activeLeases := dropLease leaseId st.activeLeases
            availableTokens := st.availableTokens + lease.tokens
            lastMemoryStatus := snap } := by
        simp [releaseStep, hfind]
      rw [hred]
      refine ⟨?_, rfl, ?_⟩
      · show 0 ≤ st.availableTokens + lease.tokens
        omega
      · intro p hp
        exact hlease p (mem_dropLease leaseId st.activeLeases p hp)

theorem budget_snapCalm_eval :
    calculateTokenBudget snapCalm programConfig =
      { totalTokens := 10
        throttleLevel := .Normal
        recommendedParallelism := 6
        availableCommitGb := 28 } := by
  simp only [calculateTokenBudget, clampInt, snapCalm, programConfig, bytesPerGb]
  norm_num

theorem budget_snapPressure_eval :
    calculateTokenBudget snapPressure programConfig =
      { totalTokens := 1
        throttleLevel := .Caution
        recommendedParallelism := 1
        availableCommitGb := 10 } := by
  simp only [calculateTokenBudget, clampInt, snapPressure, programConfig, bytesPerGb]
  norm_num

theorem mkPool_snapCalm_eval :
    mkPool programConfig snapCalm =
      { totalTokens := 10
        availableTokens := 10
        activeLeases := []
        throttleLevel := .Normal
        lastMemoryStatus := snapCalm
        expiredLeaseCount := 0 } := by
  simp only [mkPool, recalculateBudget, budget_snapCalm_eval]
  norm_num

/-- C4 (counterexample). The claimed invariant
`available_tokens ≤ total_tokens` fails after a release: start the pool
on the calm snapshot (budget 10, all available), grant a 5-token lease,
let a maintenance tick under the pressured snapshot shrink the budget
to 1 (available drops to 0), then release the lease — the release adds
its 5 tokens back without recomputing the budget, leaving
`total_tokens = 1 < 5 = available_tokens`. -/
theorem pool_invariant_counterexample :
    (releaseStep programConfig snapPressure "aaaabbbbcccc" 0 0 0 3000 true
        (monitorTick programConfig snapPressure 1000
          (tryAcquireStep programConfig "cl" 5 snapCalm "aaaabbbbcccc" 0
            (mkPool programConfig snapCalm)).2)).2.totalTokens <
      (releaseStep programConfig snapPressure "aaaabbbbcccc" 0 0 0 3000 true
        (monitorTick programConfig snapPressure 1000
          (tryAcquireStep programConfig "cl" 5 snapCalm "aaaabbbbcccc" 0
            (mkPool programConfig snapCalm)).2)).2.availableTokens := by
  have hacq : (tryAcquireStep programConfig "cl" 5 snapCalm "aaaabbbbcccc" 0
      (mkPool programConfig snapCalm)).2 =
      { totalTokens := 10
        availableTokens := 5
        activeLeases := [("aaaabbbbcccc",
          { leaseId := "aaaabbbbcccc"
            tool := "cl"
            tokens := 5
            acquiredAt := 0
            expiresAt := 1800000
            commitRatioAtAcquire := 0.5625
            warningLogged := false })]
        throttleLevel := .Normal
        lastMemoryStatus := snapCalm
        expiredLeaseCount := 0 } := by
    rw [mkPool_snapCalm_eval]
    simp only [tryAcquireStep, recalculateBudget, budget_snapCalm_eval,
      leaseTimeoutMs]
    rw [if_neg (by decide : ¬(ThrottleLevel.Normal = ThrottleLevel.HardStop))]
    norm_num [snapCalm]
  have htick : monitorTick programConfig snapPressure 1000
      { totalTokens := 10
        availableTokens := 5
        activeLeases := [("aaaabbbbcccc",
          { leaseId := "aaaabbbbcccc"
            tool := "cl"
            tokens := 5
            acquiredAt := 0
            expiresAt := 1800000
            commitRatioAtAcquire := 0.5625
            warningLogged := false })]
        throttleLevel := .Normal
        lastMemoryStatus := snapCalm
        expiredLeaseCount := 0 } =
      { totalTokens := 1
        availableTokens := 0
        activeLeases := [("aaaabbbbcccc",
          { leaseId := "aaaabbbbcccc"
            tool := "cl"
            tokens := 5
            acquiredAt := 0
            expiresAt := 1800000
            commitRatioAtAcquire := 0.5625
            warningLogged := false })]
        throttleLevel := .Caution
        lastMemoryStatus := snapPressure
        expiredLeaseCount := 0 } := by
    simp only [monitorTick, recalculateBudget, budget_snapPressure_eval,
      checkExpiredLeases, sweepLeases, markWarning, expiredTokens,
      expiredCountOf, leaseWarningThresholdMs]
    norm_num
  rw [hacq, htick]
  simp only [releaseStep, findLease]
  norm_num

/-- Witness for C4 (amended): the recompute leg instantiated on the
freshly constructed calm pool, assembling the spec's token invariant
there. -/
theorem pool_token_invariants_witness :
    TokenInv programConfig
      (recalculateBudget programConfig (mkPool programConfig snapCalm)) := by
  obtain ⟨⟨h1, h2, h3⟩, h4, -⟩ := pool_token_invariants.1 programConfig
    (mkPool programConfig snapCalm) (by norm_num [programConfig])
    (by norm_num [programConfig])
  exact ⟨h1, h4 (by rw [mkPool_snapCalm_eval]), h2, h3⟩

/-! Section: C5, memory-probe failure handling -/

/-- C5 (counterexample). On a probe failure the acquire request is
aborted with an error reply — it is not evaluated against a worst-case
snapshot with `commit_ratio = 1.0` (under the default config such a
snapshot would produce a hard-stop denial, not an error). -/
theorem probe_failure_counterexample :
    (processAcquireMessage programConfig "cl" 1
        (.error "GlobalMemoryStatusEx failed") "aaaabbbbcccc" 0
        (mkPool programConfig snapCalm)).1 =
      .errorReply "GlobalMemoryStatusEx failed" := rfl

/-- C5 (amended). A memory-probe failure is never recovered by a
worst-case substitution: `GetMemoryStatus` raises, `TryAcquireAsync`
propagates the error (pool untouched), the pipe server's catch-all
turns it into an error reply that aborts the request, and a probe
failure at startup aborts startup. -/
theorem probe_failure_propagates :
    (∀ (config : TokenBudgetConfig) (tool : String) (requestedTokens : ℤ)
      (e newLeaseId : String) (now : ℤ) (st : PoolState),
      tryAcquireStepProbed config tool requestedTokens (.error e) newLeaseId
          now st = .error e ∧
      processAcquireMessage config tool requestedTokens (.error e) newLeaseId
          now st = (.errorReply e, st)) ∧
    (∀ (config : TokenBudgetConfig) (e : String),
      startGovernor config (.error e) = .error e) ∧
    probeMemoryStatus none = .error "GlobalMemoryStatusEx failed" :=
  ⟨fun _ _ _ _ _ _ _ => ⟨rfl, rfl⟩, fun _ _ => rfl, rfl⟩

/-! Section: C7, the acquire loop's first evaluation -/

/-- C7 (counterexample). With `timeout = 0`, a calm pool (throttle
`Normal`, 10 tokens available) and a 5-token request, the acquire loop
returns the timeout denial without performing any grant evaluation:
`DateTime.UtcNow < deadline` is already false at the first check. -/
theorem acquire_zero_timeout_counterexample :
    (mkPool programConfig snapCalm).throttleLevel = .Normal ∧
    (5 : ℤ) ≤ (mkPool programConfig snapCalm).availableTokens ∧
    (tryAcquireLoop programConfig "cl" 5 0 0 (fun _ => 0) (fun _ => snapCalm)
        (fun _ => "aaaabbbbcccc") 5 0 (mkPool programConfig snapCalm)).1 =
      timeoutDenied programConfig (mkPool programConfig snapCalm) := by
  refine ⟨by rw [mkPool_snapCalm_eval], ?_, ?_⟩
  · rw [mkPool_snapCalm_eval]
    norm_num
  · simp [tryAcquireLoop]

/-- C7 (amended). The first evaluation is immediate whenever the
deadline has not already passed at the first loop check (in particular
for every positive timeout): any outcome other than the fall-through
`spin` — a grant or a hard-stop denial — is returned from the very
first evaluation, before any throttle-dependent sleep.  With
`timeout = 0`, however, the deadline check fails before the first
evaluation and the call returns the timeout denial. -/
theorem tryAcquire_first_evaluation :
    (∀ (config : TokenBudgetConfig) (tool : String)
      (requestedTokens timeoutMs startTime : ℤ) (times : ℕ → ℤ)
      (snaps : ℕ → MemoryStatus) (leaseIds : ℕ → String) (fuel : ℕ)
      (st : PoolState) (reason : String) (p : ℤ) (st' : PoolState),
      times 0 < startTime + timeoutMs →
      tryAcquireStep config tool requestedTokens (snaps 0) (leaseIds 0)
          (times 0) st = (.denied reason p, st') →
      tryAcquireLoop config tool requestedTokens timeoutMs startTime times
          snaps leaseIds (fuel + 1) 0 st = (.denied reason p, st')) ∧
    (∀ (config : TokenBudgetConfig) (tool : String)
      (requestedTokens timeoutMs startTime : ℤ) (times : ℕ → ℤ)
      (snaps : ℕ → MemoryStatus) (leaseIds : ℕ → String) (fuel : ℕ)
      (st : PoolState) (l : String) (g p : ℤ) (c : ℚ) (st' : PoolState),
      times 0 < startTime + timeoutMs →
      tryAcquireStep config tool requestedTokens (snaps 0) (leaseIds 0)
          (times 0) st = (.granted l g p c, st') →
      tryAcquireLoop config tool requestedTokens timeoutMs startTime times
          snaps leaseIds (fuel + 1) 0 st = (.granted l g p c, st')) ∧
    (∀ (config : TokenBudgetConfig) (tool : String)
      (requestedTokens startTime : ℤ) (times : ℕ → ℤ)
      (snaps : ℕ → MemoryStatus) (leaseIds : ℕ → String) (fuel : ℕ)
      (st : PoolState),
      startTime ≤ times 0 →
      tryAcquireLoop config tool requestedTokens 0 startTime times snaps
          leaseIds fuel 0 st = (timeoutDenied config st, st)) := by
  refine ⟨?_, ?_, ?_⟩
  · intro config tool requestedTokens timeoutMs startTime times snaps leaseIds
      fuel st reason p st' h1 hstep
    simp only [tryAcquireLoop]
    rw [if_pos h1, hstep]
  · intro config tool requestedTokens timeoutMs startTime times snaps leaseIds
      fuel st l g p c st' h1 hstep
    simp only [tryAcquireLoop]
    rw [if_pos h1, hstep]
  · intro config tool requestedTokens startTime times snaps leaseIds fuel st h
    cases fuel with
    | zero => rfl
    | succ fuel =>
      simp only [tryAcquireLoop]
      rw [if_neg (by omega)]

/-- Witness for C7 (amended): with a positive timeout the same calm
pool and 5-token request are decided by the first evaluation. -/
theorem tryAcquire_first_evaluation_witness :
    tryAcquireLoop programConfig "cl" 5 100 0 (fun _ => 0) (fun _ => snapCalm)
        (fun _ => "aaaabbbbcccc") 4 0 (mkPool programConfig snapCalm) =
      (.granted "aaaabbbbcccc" 5 6 0.5625,
        (tryAcquireStep programConfig "cl" 5 snapCalm "aaaabbbbcccc" 0
          (mkPool programConfig snapCalm)).2) := by
  have hstep : (tryAcquireStep programConfig "cl" 5 snapCalm "aaaabbbbcccc" 0
      (mkPool programConfig snapCalm)).1 = .granted "aaaabbbbcccc" 5 6 0.5625 := by
    rw [mkPool_snapCalm_eval]
    simp only [tryAcquireStep, recalculateBudget, budget_snapCalm_eval,
      calculateRecommendedParallelism, leaseTimeoutMs]
    rw [if_neg (by decide : ¬(ThrottleLevel.Normal = ThrottleLevel.HardStop))]
    norm_num [snapCalm]
  exact tryAcquire_first_evaluation.2.1 programConfig "cl" 5 100 0 (fun _ => 0)
    (fun _ => snapCalm) (fun _ => "aaaabbbbcccc") 3
    (mkPool programConfig snapCalm) "aaaabbbbcccc" 5 6 0.5625
    (tryAcquireStep programConfig "cl" 5 snapCalm "aaaabbbbcccc" 0
      (mkPool programConfig snapCalm)).2 (by norm_num)
    (Prod.ext hstep rfl)

/-! Section: C8, heartbeat -/

/-- C8 (counterexample). A heartbeat naming a lease id that is not in
the table is still answered `alive = true`: the handler never consults
the lease table, so the response does not report whether the lease is
active. -/
theorem heartbeat_counterexample :
    findLease "aaaabbbbcccc" (mkPool programConfig snapCalm).activeLeases =
      none ∧
    (processHeartbeatMessage "aaaabbbbcccc" 42
        (mkPool programConfig snapCalm)).1.alive = true := by
  constructor
  · rw [mkPool_snapCalm_eval]
    rfl
  · rfl

/-- C8 (amended). `HandleHeartbeat` ignores the request's `lease_id`
entirely: every heartbeat is answered `{alive = true, timestamp}`
regardless of the lease table, and processing it leaves the pool —
hence every lease and its TTL — untouched. -/
theorem heartbeat_ignores_lease :
    ∀ (leaseId : String) (now : ℤ) (st : PoolState),
      processHeartbeatMessage leaseId now st =
        ({ alive := true, timestamp := now }, st) :=
  fun _ _ _ => rfl

/-! Section: C9, configuration validation at startup -/

/-- C9 (counterexample). A configuration whose thresholds are out of
order (`hard_stop_ratio = 0.5 < 0.88 = soft_stop_ratio`) is accepted:
startup constructs the pool instead of exiting non-zero. -/
theorem config_validation_counterexample :
    ¬(({ programConfig with hardStopRatio := 0.5 } :
        TokenBudgetConfig).hardStopRatio >
      ({ programConfig with hardStopRatio := 0.5 } :
        TokenBudgetConfig).softStopRatio) ∧
    startGovernor { programConfig with hardStopRatio := 0.5 } (.ok snapCalm) =
      .ok (mkPool { programConfig with hardStopRatio := 0.5 } snapCalm) := by
  constructor
  · norm_num [programConfig]
  · rfl

/-- C9 (amended). No threshold-ordering validation exists: startup
accepts every configuration and starts the pool (there is no
log-and-exit path).  The only configuration a running governor ever
uses — the one hard-coded in `Program.cs` — does satisfy
`hard_stop_ratio > soft_stop_ratio > caution_ratio`. -/
theorem startup_performs_no_validation :
    (∀ (config : TokenBudgetConfig) (snap : MemoryStatus),
      startGovernor config (.ok snap) = .ok (mkPool config snap)) ∧
    programConfig.hardStopRatio > programConfig.softStopRatio ∧
    programConfig.softStopRatio > programConfig.cautionRatio := by
  refine ⟨fun _ _ => rfl, ?_, ?_⟩ <;> norm_num [programConfig]

/-! Section: C10, zero commit limit -/

/-- The safety property claimed for a zero commit limit: ratio 0 and a
`Normal` throttle under positive thresholds. -/
def ZeroLimitSafe (m : MemoryStatusEx) (config : TokenBudgetConfig) : Prop :=
  (getMemoryStatus m).commitRatio = 0 ∧
  (calculateTokenBudget (getMemoryStatus m) config).throttleLevel = .Normal

/-- C10. A sample whose reported commit limit (`ullTotalPageFile`) is 0
produces `commit_ratio = 0` (the guarded division, not an error or a
worst case), and the budget computed from such a snapshot reports
throttle level `Normal` under any configuration with positive
thresholds. -/
theorem zero_commit_limit_normal (m : MemoryStatusEx)
    (config : TokenBudgetConfig) (h0 : m.ullTotalPageFile = 0)
    (hc : 0 < config.cautionRatio) (hs : 0 < config.softStopRatio)
    (hh : 0 < config.hardStopRatio) : ZeroLimitSafe m config := by
  have hr : (getMemoryStatus m).commitRatio = 0 := by
    simp [getMemoryStatus, h0]
  refine ⟨hr, ?_⟩
  simp only [calculateTokenBudget]
  rw [hr, if_neg (not_le.mpr hh), if_neg (not_le.mpr hs), if_neg (not_le.mpr hc)]

/-- Witness for C10 at the all-zero sample and the shipped
configuration. -/
theorem zero_commit_limit_normal_witness :
    (0 : ℚ) < programConfig.cautionRatio ∧
    ZeroLimitSafe ⟨0, 0, 0, 0, 0⟩ programConfig :=
  ⟨by norm_num [programConfig],
   zero_commit_limit_normal ⟨0, 0, 0, 0, 0⟩ programConfig rfl
     (by norm_num [programConfig]) (by norm_num [programConfig])
     (by norm_num [programConfig])⟩

end Governor
